import Mathlib

/-!
Verification development for the terminalbench-web backend
(`src/backend-tb-web/src/fastapi`): a shallow embedding of the
output-buffering layer (`tb_runs/redis.py`), the task orchestrator
(`tb_runs/runner.py`) and the run-submission endpoint (`main.py`),
together with theorems settling the specification claims.

Modelling conventions:
* Python dicts that always carry the same keys become structures; the
  metadata dict written by `append_output` has exactly five keys, and the
  three keys `mark_task_complete` tries to add are `Option` fields that are
  `none` when absent.
* The Redis store is an association list keyed by `(task_id, run_id)`;
  `redis.lpush` prepends to the per-key list (head = most recent),
  `redis.lrange 0 -1` reads the whole list, `reversed` restores
  chronological order.  TTLs (`redis.expire`) are not modelled: no claim
  concerns expiry.
* Exceptions are modelled with `Except String`; a `try/except` that
  swallows the exception becomes a `match` whose `.error` branch returns
  the unchanged state.
* Timestamps are an opaque `Nat` passed in by the caller.
-/

namespace TbWeb

/-- Wire shape of one streamed message, built in `send_message`
(`runner.py` lines 50-58): `{type, content, taskId, runId, seq, timestamp,
isError}`. -/
structure Message where
  type : String
  content : String
  taskId : String
  runId : String
  seq : Nat
  timestamp : Nat
  isError : Bool
deriving DecidableEq, Repr

/-- The metadata record kept under `task_meta:{task_id}:{run_id}`.
`append_output` (`redis.py` lines 53-59) writes a dict with exactly the
first five keys; `completed_at`, `final_status` and `is_complete` are the
keys `mark_task_complete` (`redis.py` lines 129-133) would add, `none`
when the key is absent from the stored dict. -/
structure MetaRecord where
  last_updated : Nat
  message_count : Nat
  task_id : String
  run_id : String
  status : String
  completed_at : Option Nat := none
  final_status : Option String := none
  is_complete : Option Bool := none
deriving DecidableEq, Repr

/-- The Redis state attached to one `(task_id, run_id)` pair: the
`task_output:...` list (head = most recently `lpush`ed) and the
`task_meta:...` value. -/
structure RunEntry where
  buffer : List Message := []
  meta : Option MetaRecord := none
deriving DecidableEq, Repr

/-- The whole Redis keyspace restricted to the per-run keys: an
association list from `(task_id, run_id)` to the run's entry. -/
abbrev Store := List ((String × String) × RunEntry)

/-- Read the entry for a key; a key that was never written behaves as an
empty list plus absent metadata. -/
def getEntry (st : Store) (task_id run_id : String) : RunEntry :=
  match st.find? (fun kv => kv.1 == (task_id, run_id)) with
  | some kv => kv.2
  | none => {}

/-- Overwrite the entry for a key. -/
def setEntry (st : Store) (task_id run_id : String) (e : RunEntry) : Store :=
  ((task_id, run_id), e) :: st.filter (fun kv => kv.1 != (task_id, run_id))

/-- `TaskOutputBuffer.append_output` (`redis.py` lines 38-67):
`redis.lpush(buffer_key, json.dumps(message))`, then rebuild the metadata
dict from scratch — `{last_updated, message_count, task_id, run_id,
status: message.get('type')}` — and `redis.set` it, replacing whatever was
stored before.  (`redis.expire` and the defensive `try/except` around
Redis I/O are not modelled; Redis operations are total here.) -/
def append_output (st : Store) (task_id run_id : String) (message : Message)
    (now : Nat) : Store :=
  let e := getEntry st task_id run_id
  let buffer := message :: e.buffer
  let current_count := buffer.length
  let meta : MetaRecord :=
    { last_updated := now
      message_count := current_count
      task_id := task_id
      run_id := run_id
      status := message.type }
  setEntry st task_id run_id { buffer := buffer, meta := some meta }

/-- `TaskOutputBuffer.get_full_output` (`redis.py` lines 78-100):
`redis.lrange(buffer_key, 0, -1)` then iterate `reversed(messages)` to
recover chronological order.  JSON decoding always succeeds in the model,
so the `json.JSONDecodeError` skip never fires. -/
def get_full_output (st : Store) (task_id run_id : String) : List Message :=
  ((getEntry st task_id run_id).buffer).reverse

/-- `TaskOutputBuffer.get_output_since` (`redis.py` lines 103-106):
filter `get_full_output` by `msg.get('seq', 0) > since_seq`. -/
def get_output_since (st : Store) (task_id run_id : String) (since_seq : Nat) :
    List Message :=
  (get_full_output st task_id run_id).filter (fun msg => since_seq < msg.seq)

/-- `TaskOutputBuffer.get_task_metadata` (`redis.py` lines 109-119):
read and decode the metadata value, `none` when never written. -/
def get_task_metadata (st : Store) (task_id run_id : String) : Option MetaRecord :=
  (getEntry st task_id run_id).meta

/-- A Python runtime value as it occurs inside `mark_task_complete`:
either a real metadata dict, or the coroutine object produced by calling
an `async def` without `await`. -/
inductive PyVal where
  | coroutine
  | metaDict (m : MetaRecord)
deriving DecidableEq, Repr

/-- `meta_data = TaskOutputBuffer.get_task_metadata(task_id, run_id) or {}`
(`redis.py` line 127): `get_task_metadata` is declared `async def`, and
this call site omits `await`, so the expression evaluates to a coroutine
object — which is truthy, so the `or {}` default does not replace it.
The store and key are untouched because the coroutine is never driven. -/
def mark_meta_data (_st : Store) (_task_id _run_id : String) : PyVal :=
  PyVal.coroutine

/-- `meta_data.update({'completed_at': ..., 'final_status': ...,
'is_complete': True})` (`redis.py` lines 129-133).  On a dict this merges
the three keys; on a coroutine object the attribute lookup `update`
raises `AttributeError`. -/
def pyMetaUpdate (v : PyVal) (now : Nat) (final_status : String) :
    Except String MetaRecord :=
  match v with
  | PyVal.metaDict m =>
      Except.ok { m with
        completed_at := some now
        final_status := some final_status
        is_complete := some true }
  | PyVal.coroutine =>
      Except.error "AttributeError: coroutine object has no attribute update"

/-- `TaskOutputBuffer.mark_task_complete` (`redis.py` lines 122-138): the
whole body is wrapped in `try/except Exception`, which only prints on
failure.  Because `mark_meta_data` is a coroutine (missing `await`), the
`.update` call raises, the handler swallows it, and the store is returned
unchanged; the `redis.set` write in the `.ok` branch is unreachable. -/
def mark_task_complete (st : Store) (task_id run_id final_status : String)
    (now : Nat) : Store :=
  match pyMetaUpdate (mark_meta_data st task_id run_id) now final_status with
  | Except.ok m =>
      setEntry st task_id run_id { getEntry st task_id run_id with meta := some m }
  | Except.error _ => st

/-- Does `pat` occur as a prefix of `l`?  (Helper for Python's `in`.) -/
def listStartsWith : List Char → List Char → Bool
  | _, [] => true
  | [], _ :: _ => false
  | c :: cs, p :: ps => c == p && listStartsWith cs ps

/-- Does `pat` occur as a contiguous sublist of `l`? -/
def listContains : List Char → List Char → Bool
  | [], pat => pat.isEmpty
  | l@(_ :: tl), pat => listStartsWith l pat || listContains tl pat

/-- Python's substring test `pat in s`. -/
def strContains (s pat : String) : Bool :=
  listContains s.toList pat.toList

/-- The per-owner live channel: `user_queues` in `main.py` line 273 maps
each owner to an `asyncio.Queue`; `maxsize = 0` is asyncio's "infinite
queue" sentinel. -/
structure LiveQueue where
  maxsize : Nat
  items : List Message
deriving DecidableEq, Repr

/-- `user_queues: dict[str, asyncio.Queue[dict]] = defaultdict(asyncio.Queue)`
(`main.py` line 273): the default factory calls `asyncio.Queue()` with its
default `maxsize=0`, i.e. an unbounded queue. -/
def user_queue_new : LiveQueue := { maxsize := 0, items := [] }

/-- `queue.put_nowait(message)`: raises `QueueFull` exactly when
`0 < maxsize ≤ len(items)`; both call sites treat a raise as a silent
drop (`send_message` catches `QueueFull` and passes), so the model
returns the queue unchanged in that case. -/
def put_nowait (q : LiveQueue) (m : Message) : LiveQueue :=
  if q.maxsize == 0 || q.items.length < q.maxsize then
    { q with items := q.items ++ [m] }
  else q

/-- The mutable state threaded through `run_task_streaming`: the `seq`
counter captured by the `send_message` closure, the Redis store, and the
owner's live queue. -/
structure SM where
  seq : Nat
  store : Store
  queue : LiveQueue
deriving DecidableEq, Repr

/-- The `skip_patterns` list of `should_buffer_message`
(`runner.py` lines 82-89), verbatim. -/
def skip_patterns : List String :=
  ["Downloading", "Extracting", "Installing", "Building wheels",
   "Collecting", "Using cached", "Running setup.py",
   "Successfully installed", "Requirement already satisfied",
   "Step ", " ---> ", "Removing intermediate container",
   "Successfully built", "Archive:", "inflating:", "creating:",
   "GET https://", "200 OK", "Sending build context"]

/-- `should_buffer_message` (`runner.py` lines 73-99): `status`, `error`
and `complete` always buffer; `output` buffers unless some skip pattern
occurs in the content; every other type returns `False`. -/
def should_buffer_message (msg_type content : String) : Bool :=
  if msg_type == "status" || msg_type == "error" || msg_type == "complete" then
    true
  else if msg_type == "output" then
    !(skip_patterns.any (fun pattern => strContains content pattern))
  else
    false

/-- `send_message` (`runner.py` lines 47-71): bump `seq`, build the
message dict, append it to the Redis buffer when `buffer` is set and
`should_buffer_message` accepts it, and always `put_nowait` it onto the
owner's live queue (a `QueueFull` raise is swallowed). -/
def send_message (task_id run_id : String) (now : Nat)
    (msg_type content : String) (is_error buffer : Bool) (s : SM) : SM :=
  let seq := s.seq + 1
  let message : Message :=
    { type := msg_type
      content := content
      taskId := task_id
      runId := run_id
      seq := seq
      timestamp := now
      isError := is_error }
  let store :=
    if buffer && should_buffer_message msg_type content then
      append_output s.store task_id run_id message now
    else s.store
  let queue := put_nowait s.queue message
  { seq := seq, store := store, queue := queue }

/-- The sentinel line `run_task.sh` prints when the workload proper
starts, tested in `stream_and_wait` (`runner.py` line 253). -/
def runningMarker : String := "=== RUNNING TASK ==="

/-- Loop state of `stream_and_wait` (`runner.py` lines 242-275):
`execution_started`, the build-phase `output_buffer`, and the shared
messaging state. -/
structure StreamState where
  execution_started : Bool
  output_buffer : List String
  sm : SM
deriving Repr

/-- One iteration of the `for log_line in container.logs(...)` loop
(`runner.py` lines 247-274).  Empty (rstripped) lines are skipped.  When
the marker appears, the buffered build-phase lines are re-sent with
`buffer=True` and the phase flag flips; the marker line itself then falls
into the execution branch.  Build-phase lines are collected when
`should_buffer_message` accepts them and are always live-streamed with
`buffer=False`; execution-phase lines are sent with `buffer=True`.  The
`asyncio.run_coroutine_threadsafe` indirection preserves call order, so
the sends are modelled as immediate. -/
def stream_step (task_id run_id : String) (now : Nat)
    (st : StreamState) (line : String) : StreamState :=
  if line == "" then st
  else
    let st :=
      if strContains line runningMarker then
        let sm := st.output_buffer.foldl
          (fun sm buffered_msg =>
            send_message task_id run_id now "output" buffered_msg false true sm)
          st.sm
        { execution_started := true, output_buffer := [], sm := sm }
      else st
    if !st.execution_started then
      let output_buffer :=
        if should_buffer_message "output" line then st.output_buffer ++ [line]
        else st.output_buffer
      let sm := send_message task_id run_id now "output" line false false st.sm
      { st with output_buffer := output_buffer, sm := sm }
    else
      { st with sm := send_message task_id run_id now "output" line false true st.sm }

/-- Result of `container.wait()` inside `stream_and_wait`: either the
exit `StatusCode`, or — when any exception escapes the streaming loop —
the string `f"error: {str(e)}"` that `stream_and_wait` returns instead
(`runner.py` lines 276-281). -/
inductive WaitOutcome where
  | code (n : Int)
  | streamError (msg : String)
deriving DecidableEq, Repr

/-- The external world one invocation of `run_task_streaming` interacts
with: filesystem checks, the Docker build/run/log/wait results, and
whether each best-effort cleanup call succeeds. -/
structure Env where
  zipExists : Bool
  fileSize : Nat
  buildOk : Bool
  buildError : String
  runOk : Bool
  runError : String
  containerIdShort : String
  logLines : List String
  waitOutcome : WaitOutcome
  imageRemoveOk : Bool
  tempRemoveOk : Bool
deriving Repr

/-- The dict `run_task_streaming` returns (`runner.py` lines 292-317):
the `success` dict has no `error` key, the `error` dict has no
`exit_code` key; absent keys are `none`. -/
structure RunResult where
  status : String
  exit_code : Option Int
  task_name : String
  run_id : String
  error : Option String
deriving DecidableEq, Repr

/-- `task_buffer.force_flush(task_id, run_id)` (`runner.py` line 300):
`TaskOutputBuffer` defines no attribute named this, so the call raises
`AttributeError` (Python renders the message with quotes around the two
names; the quotes are elided here). -/
def force_flush_attr : Except String Unit :=
  Except.error "AttributeError: TaskOutputBuffer object has no attribute force_flush"

/-- Outcome of the `try` body of `run_task_streaming` (`runner.py` lines
104-307): the messaging state after all sends, which per-run resources
were created (`temp_dir`, the local binding `custom_image_name`, the
container), and either a normal return value or the exception text that
reaches the `except` handler. -/
structure TryResult where
  sm : SM
  tempDirCreated : Bool
  imageNameBound : Bool
  containerCreated : Bool
  outcome : Except String RunResult
deriving Repr

/-- The `try` body of `run_task_streaming` (`runner.py` lines 104-307),
straight-line: status message, existence/size checks, temp dir + custom
Dockerfile staging, image build, container start, `stream_and_wait` on a
worker, then the exit-code branches.  On nonzero exit the
`task_buffer.force_flush` call raises `AttributeError`, so the `failed`
return dict is never reached. -/
def try_body (env : Env) (zip_file_path task_name _user_id task_id run_id : String)
    (now : Nat) (s0 : SM) : TryResult :=
  let s := send_message task_id run_id now "status"
    ("Starting task: " ++ task_name) false true s0
  if !env.zipExists then
    { sm := s, tempDirCreated := false, imageNameBound := false,
      containerCreated := false,
      outcome := Except.error ("Source zip file does not exist: " ++ zip_file_path) }
  else if env.fileSize == 0 then
    { sm := s, tempDirCreated := false, imageNameBound := false,
      containerCreated := false,
      outcome := Except.error "Source zip file is empty" }
  else
    -- temp_dir = tempfile.mkdtemp(prefix="tb_build_"); Dockerfile/script/zip copies
    -- and the custom Dockerfile write are filesystem effects with no further
    -- observable state, so only the creation flag is tracked.
    let s := send_message task_id run_id now "status"
      "Building custom Docker image with task file..." false true s
    let custom_image_name := "tb-task-" ++ task_id ++ "-" ++ run_id.take 8
    if !env.buildOk then
      { sm := s, tempDirCreated := true, imageNameBound := true,
        containerCreated := false, outcome := Except.error env.buildError }
    else
      let s := send_message task_id run_id now "status"
        ("Image built successfully: " ++ custom_image_name) false true s
      if !env.runOk then
        { sm := s, tempDirCreated := true, imageNameBound := true,
          containerCreated := false, outcome := Except.error env.runError }
      else
        let s := send_message task_id run_id now "status"
          ("Container started: " ++ env.containerIdShort) false true s
        let str0 : StreamState :=
          { execution_started := false, output_buffer := [], sm := s }
        let strEnd := env.logLines.foldl (stream_step task_id run_id now) str0
        let s := strEnd.sm
        match env.waitOutcome with
        | WaitOutcome.streamError e =>
            -- stream_and_wait returned f"error: {e}"; the caller strips the
            -- 7-character prefix and raises Exception(e).
            { sm := s, tempDirCreated := true, imageNameBound := true,
              containerCreated := true, outcome := Except.error e }
        | WaitOutcome.code exit_code =>
          if exit_code = 0 then
            let s := send_message task_id run_id now "status"
              "Task completed successfully" false true s
            let s := { s with
              store := mark_task_complete s.store task_id run_id "success" now }
            { sm := s, tempDirCreated := true, imageNameBound := true,
              containerCreated := true,
              outcome := Except.ok
                { status := "success", exit_code := some exit_code,
                  task_name := task_name, run_id := run_id, error := none } }
          else
            let s := send_message task_id run_id now "status"
              ("Task failed with exit code " ++ toString exit_code) true true s
            match force_flush_attr with
            | Except.ok _ =>
                { sm := s, tempDirCreated := true, imageNameBound := true,
                  containerCreated := true,
                  outcome := Except.ok
                    { status := "failed", exit_code := some exit_code,
                      task_name := task_name, run_id := run_id,
                      error := some ("Container exited with code " ++ toString exit_code) } }
            | Except.error e =>
                { sm := s, tempDirCreated := true, imageNameBound := true,
                  containerCreated := true, outcome := Except.error e }

/-- Everything observable after `run_task_streaming` returns: the return
dict, the final messaging state, and which cleanup actions took effect. -/
structure RunOutcome where
  result : RunResult
  sm : SM
  containerRemoved : Bool
  imageRemoved : Bool
  tempDirRemoved : Bool
  tempDirCreated : Bool
  imageNameBound : Bool
  containerCreated : Bool
deriving Repr

/-- `TerminalBenchRunner.run_task_streaming` (`runner.py` lines 27-343).
The `except Exception` handler (lines 309-317) sends an error status,
calls the (inert) `mark_task_complete` with `"error"`, and returns the
`error` dict.  The `finally` block (lines 318-343) then runs: the
`container.remove(force=True)` call is commented out in the source, so
the container is never removed; `images.remove` runs only when
`custom_image_name` is bound in locals; `shutil.rmtree` runs only when
`temp_dir` was created; each is wrapped in its own `try/except`, so a
cleanup failure only prints and never alters the returned dict. -/
def run_task_streaming (env : Env)
    (zip_file_path task_name user_id task_id run_id : String)
    (now : Nat) (st0 : Store) (q : LiveQueue) : RunOutcome :=
  let t := try_body env zip_file_path task_name user_id task_id run_id now
    { seq := 0, store := st0, queue := q }
  let afterExc : SM × RunResult :=
    match t.outcome with
    | Except.ok r => (t.sm, r)
    | Except.error e =>
        let s := send_message task_id run_id now "status"
          ("Error: " ++ e) true true t.sm
        let s := { s with
          store := mark_task_complete s.store task_id run_id "error" now }
        (s, { status := "error", exit_code := none, task_name := task_name,
              run_id := run_id, error := some e })
  { result := afterExc.2
    sm := afterExc.1
    containerRemoved := false
    imageRemoved := t.imageNameBound && env.imageRemoveOk
    tempDirRemoved := t.tempDirCreated && env.tempRemoveOk
    tempDirCreated := t.tempDirCreated
    imageNameBound := t.imageNameBound
    containerCreated := t.containerCreated }

/-- The JSON object `run_task_from_firebase_storage` returns
(`main.py` lines 564-572).  `stream_task_id`/`stream_run_id` are the
`task_id`/`run_id` query filters baked into the returned `stream_url`. -/
structure SubmitResponse where
  status : String
  task_id : String
  run_id : String
  user_id : String
  stream_task_id : String
  stream_run_id : String
deriving DecidableEq, Repr

/-- `POST /run-task-from-storage` (`main.py` lines 386-572), restricted
to the identifier plumbing the claims are about.

* `run_id = str(uuid.uuid4())` — modelled as the caller-supplied fresh
  value `uuid_endpoint`.
* `task_id = request.task_name` — and it is never reassigned afterwards;
  the storage-path resolution branches (lines 407-472) rewrite only
  `storage_path` and `task_name`.  The non-UUID filename branch, in which
  `task_name` has any `.zip` stripped, is the one modelled; the
  Firebase/Redis metadata lookup branch differs only in where
  `storage_path`/`task_name` come from.
* `run_task_background` awaits `tb_runner.run_task_streaming(temp_file_path,
  task_name, user_id, run_id, output_queue)` — the endpoint's `run_id` is
  passed as the runner's `task_id` parameter, and the runner mints its own
  fresh `run_id` (`uuid_runner` here, line 44 of `runner.py`).
* On normal completion the background task enqueues a synthetic
  `completion_message` with `type="complete"`, `taskId=task_id`,
  `runId=run_id` and `seq=999999` (`main.py` lines 533-542); its dict has
  no `isError` key, modelled as `false`.  The `except` branch of
  `run_task_background` is unreachable because `run_task_streaming`
  catches every exception internally. -/
def run_task_from_firebase_storage (env : Env)
    (request_task_name user_id : String)
    (uuid_endpoint uuid_runner : String) (now : Nat) (st0 : Store)
    (q : LiveQueue) : SubmitResponse × RunOutcome :=
  let run_id := uuid_endpoint
  let task_id := request_task_name
  let task_name :=
    if request_task_name.endsWith ".zip" then
      request_task_name.replace ".zip" ""
    else request_task_name
  let out := run_task_streaming env "temp_file.zip" task_name user_id
    run_id uuid_runner now st0 q
  let completion_message : Message :=
    { type := "complete"
      content := "Task execution finished"
      taskId := task_id
      runId := run_id
      seq := 999999
      timestamp := now
      isError := false }
  let q2 := put_nowait out.sm.queue completion_message
  let resp : SubmitResponse :=
    { status := "started", task_id := task_id, run_id := run_id,
      user_id := user_id, stream_task_id := task_id, stream_run_id := run_id }
  (resp, { out with sm := { out.sm with queue := q2 } })

/-- Append a list of messages to the buffer in order — the trace of
`append_output` calls a run performs. -/
def appendAll (st : Store) (task_id run_id : String) (ms : List Message)
    (now : Nat) : Store :=
  ms.foldl (fun st m => append_output st task_id run_id m now) st

/-- A benign environment: the zip exists and is nonempty, build and
container start succeed, no log lines, exit code 0, cleanup succeeds. -/
def env_ok : Env :=
  { zipExists := true, fileSize := 10, buildOk := true, buildError := "",
    runOk := true, runError := "", containerIdShort := "abcdef123456",
    logLines := [], waitOutcome := WaitOutcome.code 0,
    imageRemoveOk := true, tempRemoveOk := true }

/-- `env_ok` but the container exits with code 2. -/
def env_exit2 : Env := { env_ok with waitOutcome := WaitOutcome.code 2 }

/-- `env_ok` but the container prints one clean output line (and never
prints the `=== RUNNING TASK ===` marker). -/
def env_lines : Env := { env_ok with logLines := ["hello world"] }

/-- A concrete submission through the endpoint: task name `mytask`, owner
`alice`; the endpoint mints `uuid-one` and the runner mints `uuid-two`. -/
def submit_run : SubmitResponse × RunOutcome :=
  run_task_from_firebase_storage env_ok "mytask" "alice" "uuid-one" "uuid-two"
    0 [] user_queue_new

/-- A concrete successful run of the orchestrator alone. -/
def success_run : RunOutcome :=
  run_task_streaming env_ok "z.zip" "hello" "alice" "task-1" "run-1" 0 []
    user_queue_new

/-- A concrete run whose container exits with code 2. -/
def exit2_run : RunOutcome :=
  run_task_streaming env_exit2 "z.zip" "hello" "alice" "task-1" "run-1" 0 []
    user_queue_new

/-- A concrete successful run that emitted one clean output line during
the build phase. -/
def lines_run : RunOutcome :=
  run_task_streaming env_lines "z.zip" "hello" "alice" "task-1" "run-1" 0 []
    user_queue_new

/-- A throwaway message for queue experiments. -/
def dummy_msg : Message :=
  { type := "output", content := "x", taskId := "t", runId := "r",
    seq := 1, timestamp := 0, isError := false }

/-- Invariant of the runner's messaging state: the live queue (unbounded,
so it records every emission of `send_message`) holds Messages whose
`seq` values are exactly `1, 2, …, n` in emission order, all stamped with
the runner's own `task_id`/`run_id`, and the closure's counter equals the
number of emissions. -/
def SeqInv (tid rid : String) (s : SM) : Prop :=
  s.queue.maxsize = 0 ∧
  s.seq = s.queue.items.length ∧
  s.queue.items.map Message.seq = List.range' 1 s.queue.items.length ∧
  ∀ m ∈ s.queue.items, m.taskId = tid ∧ m.runId = rid

/-! ## Store lemmas -/

/-- Reading back the key just written returns the written entry. -/
theorem getEntry_setEntry_same (st : Store) (tid rid : String) (e : RunEntry) :
    getEntry (setEntry st tid rid e) tid rid = e := by
  simp [getEntry, setEntry, List.find?]

/-- The entry after `append_output`: the message is pushed onto the list
and the metadata is rebuilt from scratch. -/
theorem getEntry_append_output (st : Store) (tid rid : String) (m : Message)
    (now : Nat) :
    getEntry (append_output st tid rid m now) tid rid =
      { buffer := m :: (getEntry st tid rid).buffer
        meta := some
          { last_updated := now
            message_count := (getEntry st tid rid).buffer.length + 1
            task_id := tid
            run_id := rid
            status := m.type } } := by
  unfold append_output
  rw [getEntry_setEntry_same]
  simp

/-- `get_full_output` after one `append_output`: the new message lands at
the chronological end. -/
theorem get_full_output_append (st : Store) (tid rid : String) (m : Message)
    (now : Nat) :
    get_full_output (append_output st tid rid m now) tid rid =
      get_full_output st tid rid ++ [m] := by
  unfold get_full_output
  rw [getEntry_append_output]
  simp

/-- The buffer list accumulated by a run of `append_output` calls. -/
theorem getEntry_appendAll (tid rid : String) (now : Nat) :
    ∀ (ms : List Message) (st : Store),
      (getEntry (appendAll st tid rid ms now) tid rid).buffer =
        ms.reverse ++ (getEntry st tid rid).buffer := by
  intro ms
  induction ms with
  | nil => intro st; simp [appendAll]
  | cons m ms ih =>
      intro st
      have hstep : appendAll st tid rid (m :: ms) now =
          appendAll (append_output st tid rid m now) tid rid ms now := rfl
      rw [hstep, ih, getEntry_append_output]
      simp

/-! ## C3 — `mark_complete` -/

/-- C3: the claim says `mark_complete(run, final_status)` idempotently
sets `is_complete = true` and records `final_status`, visible
immediately afterwards.  The code cannot do this: `mark_task_complete`
calls the `async` `get_task_metadata` without `await`, the resulting
coroutine object has no `update` attribute, the `AttributeError` is
swallowed by the blanket `except`, and the function returns having
written nothing.  This theorem evaluates the code: `mark_task_complete`
is the identity on the store for every input. -/
theorem c3_mark_task_complete_writes_nothing (st : Store)
    (task_id run_id final_status : String) (now : Nat) :
    mark_task_complete st task_id run_id final_status now = st := rfl

/-! ## C10 — `append_output` replaces the metadata record wholesale -/

/-- C10: every `append_output` replaces the run's metadata with a freshly
built record holding only `last_updated`, `message_count`, `task_id`,
`run_id` and `status` (the appended message's kind); whatever the prior
record held — in particular any `is_complete`, `final_status` or
`completed_at` fields — is erased, since the fresh record carries `none`
in those fields for every prior store `st`. -/
theorem c10_append_output_replaces_metadata (st : Store) (tid rid : String)
    (msg : Message) (now : Nat) :
    get_task_metadata (append_output st tid rid msg now) tid rid =
      some
        { last_updated := now
          message_count := (getEntry st tid rid).buffer.length + 1
          task_id := tid
          run_id := rid
          status := msg.type
          completed_at := none
          final_status := none
          is_complete := none } := by
  unfold get_task_metadata
  rw [getEntry_append_output]

/-! ## C5 — `get_since` is the `seq > N` filter of `get_full` -/

/-- C5: for a run whose buffer was built by appending the messages `ms`
in order, `get_full_output` returns exactly `ms` (chronological order),
and `get_output_since` with threshold `N` returns exactly the members of
`get_full_output` with `seq > N`, as an order-preserving sublist — so for
persisted `seq` values `[1,2,4,6,7]` and `since_seq = 5` exactly the
messages with `seq` 6 and 7 survive, in that order. -/
theorem c5_get_since_is_filter_of_get_full (tid rid : String)
    (ms : List Message) (N now : Nat) :
    get_full_output (appendAll [] tid rid ms now) tid rid = ms ∧
    (∀ m : Message,
        m ∈ get_output_since (appendAll [] tid rid ms now) tid rid N ↔
          m ∈ get_full_output (appendAll [] tid rid ms now) tid rid ∧
            N < m.seq) ∧
    List.Sublist (get_output_since (appendAll [] tid rid ms now) tid rid N)
      (get_full_output (appendAll [] tid rid ms now) tid rid) := by
  have hfull : get_full_output (appendAll [] tid rid ms now) tid rid = ms := by
    unfold get_full_output
    rw [getEntry_appendAll]
    simp [getEntry]
  refine ⟨hfull, ?_, ?_⟩
  · intro m
    unfold get_output_since
    simp [List.mem_filter]
  · unfold get_output_since
    exact List.filter_sublist _

/-! ## C1 — returned identifiers vs. the identifiers on the Messages -/

/-- C1: the claim says the `{run_id, task_id}` returned by the
run-submission endpoint are the identifiers carried by every Message of
the resulting run, so the returned stream filters select exactly that
run's Messages, with one fresh `run_id` per attempt.  The code disagrees:
the endpoint passes its own `run_id` into `run_task_streaming` as the
runner's `task_id` parameter, and the runner mints a second fresh uuid as
its `run_id`.  On the concrete submission `submit_run` (endpoint uuid
`uuid-one`, runner uuid `uuid-two`): the caller is told
`(task_id, run_id) = ("mytask", "uuid-one")`, yet every Message the run
emits carries `taskId = "uuid-one"` and `runId = "uuid-two"`, so the
returned descriptor's filter pair matches only the synthetic
`seq = 999999` completion message from `run_task_background`, none of the
run's own Messages — and the attempt consumed two fresh run ids, not
one. -/
theorem c1_returned_ids_do_not_match_messages :
    submit_run.1.task_id = "mytask" ∧
    submit_run.1.run_id = "uuid-one" ∧
    submit_run.1.stream_task_id = "mytask" ∧
    submit_run.1.stream_run_id = "uuid-one" ∧
    (∀ m ∈ (submit_run.2).sm.queue.items, m.seq ≠ 999999 →
        m.taskId = "uuid-one" ∧ m.runId = "uuid-two") ∧
    ((submit_run.2).sm.queue.items.filter
        (fun m => m.taskId == "mytask" && m.runId == "uuid-one")).map
          Message.type = ["complete"] := by
  decide

/-! ## C2 — success path -/

/-- C2: the claim says a run whose container exits 0 emits `status` +
`complete`, its final persisted Message has `kind = complete`, and
`get_metadata` then reports `status = success` and `is_complete = true`.
Evaluating the code on the concrete successful run `success_run`: the
result is `success`, but no Message of kind `complete` is ever persisted
(the runner emits only `status`; the synthetic `complete` message lives
only on the live queue under different identifiers), the final persisted
Message has kind `status`, and — because `mark_task_complete` is inert
(missing `await`) — the metadata reports `status = "status"` with no
`is_complete` or `final_status` at all. -/
theorem c2_success_path_eval :
    success_run.result.status = "success" ∧
    (get_full_output success_run.sm.store "task-1" "run-1").getLast?.map
        Message.type = some "status" ∧
    (∀ m ∈ get_full_output success_run.sm.store "task-1" "run-1",
        m.type ≠ "complete") ∧
    (get_task_metadata success_run.sm.store "task-1" "run-1").bind
        MetaRecord.is_complete = none ∧
    (get_task_metadata success_run.sm.store "task-1" "run-1").bind
        MetaRecord.final_status = none ∧
    (get_task_metadata success_run.sm.store "task-1" "run-1").map
        MetaRecord.status = some "status" := by
  decide

/-! ## C4 — nonzero exit -/

/-- C4: the claim says a nonzero exit ends the run `FAILED` (not
`ERRORED`) with `final_status = "failed"` recorded, and a persisted
`status` Message with `is_error = true` whose payload contains the exit
code.  Evaluating the code at exit code 2 (`exit2_run`): the persisted
`is_error` status Message containing `"2"` does exist, but the run does
not end `FAILED` — the `task_buffer.force_flush` call on the failure path
raises `AttributeError` (no such method), the blanket handler converts
the run to `status = "error"`, and no `final_status` is ever recorded
(`mark_task_complete` is inert anyway). -/
theorem c4_exit2_eval :
    exit2_run.result.status = "error" ∧
    exit2_run.result.error =
      some "AttributeError: TaskOutputBuffer object has no attribute force_flush" ∧
    (∃ m ∈ get_full_output exit2_run.sm.store "task-1" "run-1",
        m.type = "status" ∧ m.isError = true ∧
          strContains m.content "2" = true) ∧
    (get_task_metadata exit2_run.sm.store "task-1" "run-1").bind
        MetaRecord.final_status = none := by
  decide

/-! ## C6 — sequence numbering -/

/-- C6 counterexample: the claim says that for every fixed `run_id` the
seq values of the Messages carrying it form a strictly increasing
sequence starting at 1, minted only by the orchestrator.  But
`run_task_background` in `main.py` mints its own Message with
`seq = 999999` carrying the endpoint's `run_id` (`uuid-one`): on
`submit_run` the Messages carrying `run_id = "uuid-one"` have seq values
`[999999]`, which does not start at 1. -/
theorem c6_endpoint_mints_seq_999999 :
    ((submit_run.2).sm.queue.items.filter
        (fun m => m.runId == "uuid-one")).map Message.seq = [999999] ∧
    (999999 : Nat) ≠ 1 := by
  decide

/-! ## C7 — cleanup -/

/-- C7 counterexample: the claim says the container is removed on
success.  On the concrete successful run `success_run` a container was
created and the run succeeded, yet the container is not removed — the
`container.remove(force=True)` call is commented out in the source, so no
exit path removes the container. -/
theorem c7_container_never_removed_on_success :
    success_run.result.status = "success" ∧
    success_run.containerCreated = true ∧
    success_run.containerRemoved = false := by
  decide

/-! ## C8 — retention filter -/

/-- C8 counterexample: the claim says an `output` Message is persisted if
and only if its payload contains none of the noise patterns.  On
`lines_run` the build-phase line `"hello world"` is emitted as an
`output` Message that matches no noise pattern and is delivered to the
live queue, yet it is not persisted: build-phase lines are sent with
`buffer=False`, so persistence also depends on the caller's `buffer`
flag, not on the payload alone. -/
theorem c8_clean_output_not_persisted :
    (⟨"output", "hello world", "task-1", "run-1", 5, 0, false⟩ : Message)
        ∈ lines_run.sm.queue.items ∧
    should_buffer_message "output" "hello world" = true ∧
    (⟨"output", "hello world", "task-1", "run-1", 5, 0, false⟩ : Message)
        ∉ get_full_output lines_run.sm.store "task-1" "run-1" := by
  decide

/-! ## C9 — live channel boundedness -/

set_option maxRecDepth 8000 in
/-- C9 counterexample: the claim says the per-owner live channel is a
bounded queue that drops Messages at capacity.  The channel the code
creates (`defaultdict(asyncio.Queue)`) has `maxsize = 0`, asyncio's
unbounded sentinel: a queue already holding 1000 items still accepts the
next `put_nowait` — there is no capacity at which publishes are
dropped. -/
theorem c9_queue_is_unbounded :
    user_queue_new.maxsize = 0 ∧
    (put_nowait { maxsize := 0, items := List.replicate 1000 dummy_msg }
        dummy_msg).items.length = 1001 := by
  constructor
  · rfl
  · simp [put_nowait]

/-- C7 (amended): on every exit path the cleanup block runs and never
touches the returned result.  Concretely: the container is removed on no
path (the removal call is commented out); the ephemeral image is removed
exactly when its name was bound (i.e. staging reached the build step) and
the best-effort `images.remove` succeeds; the staging directory is
removed exactly when it was created and the best-effort `rmtree`
succeeds; and the returned result is unchanged under any combination of
cleanup-step failures. -/
theorem c7_cleanup_best_effort_and_result_independent (env : Env)
    (zip tn uid tid rid : String) (now : Nat) (st0 : Store) (q : LiveQueue)
    (b1 b2 : Bool) :
    (run_task_streaming env zip tn uid tid rid now st0 q).containerRemoved
        = false ∧
    (run_task_streaming env zip tn uid tid rid now st0 q).imageRemoved
      = ((run_task_streaming env zip tn uid tid rid now st0 q).imageNameBound
          && env.imageRemoveOk) ∧
    (run_task_streaming env zip tn uid tid rid now st0 q).tempDirRemoved
      = ((run_task_streaming env zip tn uid tid rid now st0 q).tempDirCreated
          && env.tempRemoveOk) ∧
    (run_task_streaming { env with imageRemoveOk := b1, tempRemoveOk := b2 }
        zip tn uid tid rid now st0 q).result
      = (run_task_streaming env zip tn uid tid rid now st0 q).result :=
  ⟨rfl, rfl, rfl, rfl⟩

/-- C8 (amended): `status`, `error` and `complete` Messages always pass
the retention filter; an `output` Message passes the filter exactly when
its payload contains none of the noise patterns — but it is persisted
only when the emitting call also requested buffering (`buffer=True`; the
build-phase live stream passes `buffer=False`), so persistence is
`buffer && should_buffer_message`; and the filter never affects live
delivery — every Message produced by `send_message` is enqueued on the
(unbounded) live channel. -/
theorem c8_retention_filter_behavior (ty c : String) (e b : Bool)
    (tid rid : String) (now : Nat) (s : SM) (hq : s.queue.maxsize = 0) :
    (send_message tid rid now ty c e b s).queue.items
        = s.queue.items ++ [⟨ty, c, tid, rid, s.seq + 1, now, e⟩] ∧
    get_full_output (send_message tid rid now ty c e b s).store tid rid
      = get_full_output s.store tid rid ++
          (if b && should_buffer_message ty c then
              [⟨ty, c, tid, rid, s.seq + 1, now, e⟩] else []) ∧
    should_buffer_message "status" c = true ∧
    should_buffer_message "error" c = true ∧
    should_buffer_message "complete" c = true ∧
    (should_buffer_message "output" c = true ↔
        ∀ p ∈ skip_patterns, strContains c p = false) := by
  refine ⟨?_, ?_, rfl, rfl, rfl, ?_⟩
  · simp [send_message, put_nowait, hq]
  · by_cases h : b && should_buffer_message ty c
    · simp [send_message, h, get_full_output_append]
    · simp [send_message, h]
  · show (!(skip_patterns.any fun pattern => strContains c pattern)) = true ↔ _
    simp [List.any_eq_false]

/-- Witness for `c8_retention_filter_behavior` at a concrete input. -/
theorem c8_retention_filter_behavior_witness :
    ({ seq := 0, store := [], queue := user_queue_new } : SM).queue.maxsize
        = 0 ∧
    (send_message "t" "r" 0 "output" "hello" false true
        { seq := 0, store := [], queue := user_queue_new }).queue.items
      = ([] : List Message) ++ [⟨"output", "hello", "t", "r", 0 + 1, 0, false⟩] :=
  ⟨rfl,
    (c8_retention_filter_behavior "output" "hello" false true "t" "r" 0
      { seq := 0, store := [], queue := user_queue_new } rfl).1⟩

/-- C9 (amended): the per-owner live channel is created unbounded
(`maxsize = 0`), so `put_nowait` always enqueues and never drops — the
`QueueFull` handler is unreachable for these queues — and the Replay
Buffer append performed by `send_message` is independent of the live
queue's state: two messaging states with the same store and counter
produce the same store, whatever their queues hold. -/
theorem c9_unbounded_publish_and_independent_buffer (q : LiveQueue)
    (m : Message) (hq : q.maxsize = 0) (tid rid : String) (now : Nat)
    (ty c : String) (e b : Bool) (s₁ s₂ : SM) (hst : s₁.store = s₂.store)
    (hseq : s₁.seq = s₂.seq) :
    put_nowait q m = { q with items := q.items ++ [m] } ∧
    (send_message tid rid now ty c e b s₁).store
      = (send_message tid rid now ty c e b s₂).store := by
  constructor
  · simp [put_nowait, hq]
  · simp only [send_message]
    rw [hst, hseq]

/-- Witness for `c9_unbounded_publish_and_independent_buffer` at a
concrete input. -/
theorem c9_unbounded_publish_witness :
    user_queue_new.maxsize = 0 ∧
    put_nowait user_queue_new dummy_msg
      = { user_queue_new with items := user_queue_new.items ++ [dummy_msg] } :=
  ⟨rfl,
    (c9_unbounded_publish_and_independent_buffer user_queue_new dummy_msg rfl
      "t" "r" 0 "output" "x" false true
      { seq := 0, store := [], queue := user_queue_new }
      { seq := 0, store := [], queue := user_queue_new } rfl rfl).1⟩

/-- `send_message` preserves `SeqInv`: it stamps the next counter value
and appends to the queue. -/
theorem send_message_SeqInv {tid rid : String} {now : Nat} {ty c : String}
    {e b : Bool} {s : SM} (h : SeqInv tid rid s) :
    SeqInv tid rid (send_message tid rid now ty c e b s) := by
  obtain ⟨hq, hlen, hmap, hmem⟩ := h
  refine ⟨?_, ?_, ?_, ?_⟩
  · simp [send_message, put_nowait, hq]
  · simp [send_message, put_nowait, hq, hlen]
  · simp only [send_message, put_nowait, hq]
    simp [List.range'_1_concat, hmap, hlen, Nat.add_comm]
  · intro m hm
    simp only [send_message, put_nowait, hq] at hm
    simp only [beq_self_eq_true, Bool.true_or, if_true, List.mem_append,
      List.mem_singleton] at hm
    rcases hm with hm | hm
    · exact hmem m hm
    · subst hm; exact ⟨rfl, rfl⟩

/-- Replacing only the store leaves `SeqInv` intact. -/
theorem SeqInv_store {tid rid : String} {s : SM} (st : Store)
    (h : SeqInv tid rid s) : SeqInv tid rid { s with store := st } := by
  obtain ⟨a, b, c, d⟩ := h
  exact ⟨a, b, c, d⟩

/-- Flushing a list of buffered build-phase lines preserves `SeqInv`. -/
theorem foldl_send_SeqInv {tid rid : String} {now : Nat} (bs : List String) :
    ∀ {s : SM}, SeqInv tid rid s →
      SeqInv tid rid (bs.foldl
        (fun sm buffered_msg =>
          send_message tid rid now "output" buffered_msg false true sm) s) := by
  induction bs with
  | nil => intro s h; exact h
  | cons x xs ih => intro s h; exact ih (send_message_SeqInv h)

/-- One log-streaming step preserves `SeqInv`. -/
theorem stream_step_SeqInv {tid rid : String} {now : Nat}
    {st : StreamState} {line : String} (h : SeqInv tid rid st.sm) :
    SeqInv tid rid ((stream_step tid rid now st line).sm) := by
  unfold stream_step
  by_cases h0 : line == ""
  · simpa [h0] using h
  · by_cases h1 : strContains line runningMarker
    · simp [h0, h1]
      exact send_message_SeqInv (foldl_send_SeqInv _ h)
    · by_cases h2 : st.execution_started
      · simp [h0, h1, h2]
        exact send_message_SeqInv h
      · simp [h0, h1, h2]
        exact send_message_SeqInv h

/-- The whole log-streaming loop preserves `SeqInv`. -/
theorem stream_fold_SeqInv {tid rid : String} {now : Nat}
    (lines : List String) :
    ∀ {st : StreamState}, SeqInv tid rid st.sm →
      SeqInv tid rid ((lines.foldl (stream_step tid rid now) st).sm) := by
  induction lines with
  | nil => intro st h; exact h
  | cons l ls ih => intro st h; exact ih (stream_step_SeqInv h)

/-- The whole `try` body preserves `SeqInv`. -/
theorem try_body_SeqInv (env : Env) (zip tn uid tid rid : String) (now : Nat)
    (s0 : SM) (h : SeqInv tid rid s0) :
    SeqInv tid rid (try_body env zip tn uid tid rid now s0).sm := by
  unfold try_body
  by_cases hz : env.zipExists
  case neg =>
    simp [hz]
    exact send_message_SeqInv h
  case pos =>
    by_cases hf : env.fileSize == 0
    case pos =>
      simp [hz, hf]
      exact send_message_SeqInv h
    case neg =>
      by_cases hb : env.buildOk
      case neg =>
        simp [hz, hf, hb]
        exact send_message_SeqInv (send_message_SeqInv h)
      case pos =>
        by_cases hr : env.runOk
        case neg =>
          simp [hz, hf, hb, hr]
          exact send_message_SeqInv (send_message_SeqInv (send_message_SeqInv h))
        case pos =>
          cases hw : env.waitOutcome with
          | streamError e =>
              simp [hz, hf, hb, hr, hw]
              exact stream_fold_SeqInv _
                (send_message_SeqInv (send_message_SeqInv
                  (send_message_SeqInv (send_message_SeqInv h))))
          | code n =>
              by_cases hn : n = 0
              case pos =>
                simp [hz, hf, hb, hr, hw, hn]
                exact SeqInv_store _
                  (send_message_SeqInv (stream_fold_SeqInv _
                    (send_message_SeqInv (send_message_SeqInv
                      (send_message_SeqInv (send_message_SeqInv h))))))
              case neg =>
                simp [hz, hf, hb, hr, hw, hn, force_flush_attr]
                exact send_message_SeqInv (stream_fold_SeqInv _
                  (send_message_SeqInv (send_message_SeqInv
                    (send_message_SeqInv (send_message_SeqInv h)))))

/-- `run_task_streaming` preserves `SeqInv` end to end. -/
theorem run_task_streaming_SeqInv (env : Env)
    (zip tn uid tid rid : String) (now : Nat) (st0 : Store) (q : LiveQueue)
    (h : SeqInv tid rid { seq := 0, store := st0, queue := q }) :
    SeqInv tid rid (run_task_streaming env zip tn uid tid rid now st0 q).sm := by
  have hts := try_body_SeqInv env zip tn uid tid rid now
    { seq := 0, store := st0, queue := q } h
  unfold run_task_streaming
  cases ht : (try_body env zip tn uid tid rid now
      { seq := 0, store := st0, queue := q }).outcome with
  | ok r =>
      simp [ht]
      exact hts
  | error e =>
      simp [ht]
      exact SeqInv_store _ (send_message_SeqInv hts)

/-- C6 (amended): within the orchestrator, sequence numbers are minted in
exactly one place — the `send_message` closure — and for any run started
on a fresh unbounded queue the emitted Messages all carry the runner's
own `task_id`/`run_id` and their `seq` values are exactly `1, 2, …, n` in
emission order (strictly increasing positive integers starting at 1).
The original claim fails only for the synthetic `seq = 999999` Message
the HTTP layer mints for the endpoint's `run_id`
(see `c6_endpoint_mints_seq_999999`). -/
theorem c6_runner_seq_strictly_increasing_from_one (env : Env)
    (zip tn uid tid rid : String) (now : Nat) (st0 : Store) (q : LiveQueue)
    (hq : q.maxsize = 0) (hempty : q.items = []) :
    ((run_task_streaming env zip tn uid tid rid now st0 q).sm.queue.items.map
        Message.seq
      = List.range' 1
          (run_task_streaming env zip tn uid tid rid now
            st0 q).sm.queue.items.length) ∧
    ∀ m ∈ (run_task_streaming env zip tn uid tid rid now st0 q).sm.queue.items,
        m.taskId = tid ∧ m.runId = rid := by
  have h0 : SeqInv tid rid { seq := 0, store := st0, queue := q } := by
    refine ⟨hq, ?_, ?_, ?_⟩ <;> simp [hempty]
  have h := run_task_streaming_SeqInv env zip tn uid tid rid now st0 q h0
  exact ⟨h.2.2.1, h.2.2.2⟩

/-- Witness for `c6_runner_seq_strictly_increasing_from_one` at a
concrete input. -/
theorem c6_runner_seq_witness :
    user_queue_new.maxsize = 0 ∧ user_queue_new.items = [] ∧
    ((run_task_streaming env_ok "z.zip" "hello" "alice" "task-1" "run-1" 0 []
        user_queue_new).sm.queue.items.map Message.seq
      = List.range' 1
          (run_task_streaming env_ok "z.zip" "hello" "alice" "task-1" "run-1" 0
            [] user_queue_new).sm.queue.items.length) :=
  ⟨rfl, rfl,
    (c6_runner_seq_strictly_increasing_from_one env_ok "z.zip" "hello" "alice"
      "task-1" "run-1" 0 [] user_queue_new rfl rfl).1⟩

end TbWeb
